import Mathlib

/-!
Verification of the mortgage-calculator service core.

The development shallowly embeds the Go sources:
  internal/handlers/handlers.go  (validators, annuity calculator, response assembly)
  internal/cache/cache.go        (the concurrent in-memory store)
  pkg/models/models.go           (the data model)

Conventions of the embedding:
  * Go `int32` values are modelled as `ℤ`; where Go arithmetic can overflow,
    the wrap-around is made explicit with `toInt32` (reduction modulo 2^32
    into the signed range).
  * Go `float64` arithmetic in `monthlyPaymentCalculator` is modelled by exact
    rational arithmetic over `ℚ`; `math.Pow` with an integer exponent becomes
    `zpow`, `math.Ceil` becomes `Int.ceil`.
  * The two atomic counter operations and the mutex-protected map insert of
    `Storage.Load` are modelled as three separate atomic steps of a thread,
    interleaved by an explicit schedule (Go guarantees sequential consistency
    for these synchronisation operations).
  * `time.Now()` is passed in explicitly as a `GoDate` argument.
-/

namespace Mortgage

/-- Reduce an integer into the signed 32-bit range, as Go int32 arithmetic does. -/
def toInt32 (z : ℤ) : ℤ := (z + 2 ^ 31) % 2 ^ 32 - 2 ^ 31

/-- Go int32 addition (wraps on overflow). -/
def int32add (a b : ℤ) : ℤ := toInt32 (a + b)

/-- Go int32 multiplication (wraps on overflow). -/
def int32mul (a b : ℤ) : ℤ := toInt32 (a * b)

/-- models.Program (pkg/models/models.go): the three loan-program flags,
in the declaration order of the Go struct. -/
structure Program where
  Salary : Bool
  Military : Bool
  Base : Bool
deriving DecidableEq

/-- models.Params: object cost, initial payment and term (all Go int32). -/
structure Params where
  ObjectCost : ℤ
  InitialPayment : ℤ
  Months : ℤ
deriving DecidableEq

/-- models.Aggregates: the computed mortgage aggregates. -/
structure Aggregates where
  LastPaymentDate : String
  Rate : ℕ
  LoanSum : ℤ
  MonthlyPayment : ℤ
  Overpayment : ℤ
deriving DecidableEq

/-- models.Result: the unit returned to the caller and stored in the cache. -/
structure Result where
  aggregates : Aggregates
  params : Params
  program : Program
deriving DecidableEq

/-- models.ExecuteReqeust (struct name typo as in the source). -/
structure ExecuteReqeust where
  ObjectCost : ℤ
  InitialPayment : ℤ
  Months : ℤ
  program : Program
deriving DecidableEq

/-- models.CacheStorageFormat: a stored result plus its assigned ID. -/
structure CacheStorageFormat where
  aggregates : Aggregates
  params : Params
  program : Program
  ID : ℤ
deriving DecidableEq

/-- errs.ErrNoTrueValues and errs.ErrMoreThanOneTrue (pkg/errors/errors.go). -/
inductive ProgErr where
  | noTrueValues
  | moreThanOneTrue
deriving DecidableEq

deriving instance DecidableEq for Except

/-- initialPaymentValidator (handlers.go): the down-payment check.
The multiplication `initialPayment*5` is Go int32 multiplication and wraps. -/
def initialPaymentValidator (objectCost initialPayment : ℤ) : Bool :=
  if initialPayment > objectCost then false
  else if objectCost = 0 ∧ initialPayment = 0 then false
  else if initialPayment = 0 then false
  else if int32mul initialPayment 5 < objectCost then false
  else true

/-- programValidator (handlers.go): counts the true flags in source order
(base, military, salary), remembering the last true field, with the
redundant hasAnyField / countTrue = 0 double check kept as in the source. -/
def programValidator (p : Program) : Except ProgErr String :=
  let count1 : ℕ := if p.Base then 1 else 0
  let field1 : String := if p.Base then "base" else ""
  let count2 : ℕ := if p.Military then count1 + 1 else count1
  let field2 : String := if p.Military then "military" else field1
  let count3 : ℕ := if p.Salary then count2 + 1 else count2
  let field3 : String := if p.Salary then "salary" else field2
  let hasAnyField : Bool := p.Base || p.Military || p.Salary
  if !hasAnyField then Except.error ProgErr.noTrueValues
  else if count3 = 0 then Except.error ProgErr.noTrueValues
  else if count3 > 1 then Except.error ProgErr.moreThanOneTrue
  else Except.ok field3

/-- getLoanRateAndProgram (handlers.go): the fixed rate table. -/
def getLoanRateAndProgram (loanProgram : String) : ℕ × Program :=
  if loanProgram = "base" then (10, ⟨false, false, true⟩)
  else if loanProgram = "military" then (9, ⟨false, true, false⟩)
  else if loanProgram = "salary" then (8, ⟨true, false, false⟩)
  else (0, ⟨false, false, false⟩)

/-- monthlyPaymentCalculator (handlers.go). The Go function computes in
float64 and truncates the ceilings to int32; the model performs the same
formula in exact rational arithmetic and returns the ceilings as integers. -/
def monthlyPaymentCalculator (objectCost loanRate : ℚ) (months : ℤ) : ℤ × ℤ :=
  let monthlyRate := loanRate / (100 * 12)
  let factor := (1 + monthlyRate) ^ months
  let monthlyPayment := ⌈objectCost * (monthlyRate * factor) / (factor - 1)⌉
  let overpayment := ⌈(monthlyPayment : ℚ) * (months : ℚ) - objectCost⌉
  (monthlyPayment, overpayment)

/-- The annuity formula exactly as the specification words it
(spec 4.3: monthlyPayment = ceil(principal * monthlyRate * factor / (factor - 1)),
overpayment = ceil(monthlyPayment * months - principal)). -/
def computeAnnuitySpec (principal annualRatePercent : ℚ) (months : ℤ) : ℤ × ℤ :=
  let monthlyRate := annualRatePercent / (100 * 12)
  let factor := (1 + monthlyRate) ^ months
  let monthlyPayment := ⌈principal * monthlyRate * factor / (factor - 1)⌉
  (monthlyPayment, ⌈(monthlyPayment : ℚ) * (months : ℚ) - principal⌉)

/-- A calendar date as Go's time package exposes it (year, month 1..12, day). -/
structure GoDate where
  year : ℤ
  month : ℤ
  day : ℤ
deriving DecidableEq

/-- Gregorian leap-year rule, as in Go's time package. -/
def isLeap (y : ℤ) : Bool := (y % 4 == 0 && y % 100 != 0) || (y % 400 == 0)

/-- Number of days of a month. -/
def daysInMonth (y m : ℤ) : ℤ :=
  if m = 2 then (if isLeap y then 29 else 28)
  else if m = 4 ∨ m = 6 ∨ m = 9 ∨ m = 11 then 30
  else 31

/-- Day-overflow normalisation of Go's time.Date: a day count exceeding the
month's length rolls into the following month. One carry step suffices for
day values up to 31, which is all AddDate on a valid date can produce. -/
def normDay (y m d : ℤ) : GoDate :=
  if d > daysInMonth y m then
    if m = 12 then ⟨y + 1, 1, d - daysInMonth y m⟩
    else ⟨y, m + 1, d - daysInMonth y m⟩
  else ⟨y, m, d⟩

/-- time.Time.AddDate(0, n, 0): add n calendar months and normalise.
Lean's `/` and `%` on ℤ give Euclidean quotient and non-negative remainder,
which for the positive divisor 12 agrees with the floor-division month
normalisation Go performs. -/
def GoDate.addMonths (dte : GoDate) (n : ℤ) : GoDate :=
  let total := dte.year * 12 + (dte.month - 1) + n
  normDay (total / 12) (total % 12 + 1) dte.day

/-- Render an integer zero-padded to two digits, as Go's "01"/"02" layout
tokens do. -/
def pad2 (n : ℤ) : String := if n < 10 then "0" ++ toString n else toString n

/-- Go Format with the layout string "2006-01-01" used by prepareResponse:
in Go's reference layout, "2006" is the year and "01" is the zero-padded
month, so BOTH numeric fields after the year render the month — the day of
month never appears in the output. -/
def formatLayout20060101 (dte : GoDate) : String :=
  toString dte.year ++ "-" ++ pad2 dte.month ++ "-" ++ pad2 dte.month

/-- Go Format with the layout string "2006-01-02": the year-month-day form. -/
def formatLayout20060102 (dte : GoDate) : String :=
  toString dte.year ++ "-" ++ pad2 dte.month ++ "-" ++ pad2 dte.day

/-- prepareResponse (handlers.go), with time.Now() passed in as `today`.
The loan sum is the int32 difference ObjectCost - InitialPayment; the last
payment date is today plus Months calendar months rendered through the
"2006-01-01" layout. -/
def prepareResponse (today : GoDate) (reqData : ExecuteReqeust) (program : Program)
    (rate : ℕ) (monthlyPayment overpayment : ℤ) : Result :=
  let lastDate := formatLayout20060101 (today.addMonths reqData.Months)
  { aggregates :=
      { LastPaymentDate := lastDate
        Rate := rate
        LoanSum := toInt32 (reqData.ObjectCost - reqData.InitialPayment)
        MonthlyPayment := monthlyPayment
        Overpayment := overpayment }
    params :=
      { ObjectCost := reqData.ObjectCost
        InitialPayment := reqData.InitialPayment
        Months := reqData.Months }
    program := program }

/-- Go map assignment m[k] = v on an association-list representation:
replace the binding when the key is present, otherwise append it. -/
def mapStore : List (ℤ × CacheStorageFormat) → ℤ → CacheStorageFormat →
    List (ℤ × CacheStorageFormat)
  | [], k, v => [(k, v)]
  | (k2, v2) :: rest, k, v =>
      if k2 = k then (k, v) :: rest else (k2, v2) :: mapStore rest k v

/-- cache.Storage (cache.go): the map of stored results and the int32 ID
counter. The mutex is represented by treating the locked region as one
atomic step in the concurrent semantics below. -/
structure Storage where
  str : List (ℤ × CacheStorageFormat)
  IDCounter : ℤ
deriving DecidableEq

/-- cache.New: an empty map; the counter starts at Go's zero value. -/
def Storage.New : Storage := ⟨[], 0⟩

/-- The CacheStorageFormat entry Load builds from a Result and an ID. -/
def toCacheFormat (id : ℤ) (value : Result) : CacheStorageFormat :=
  { aggregates := value.aggregates
    params := value.params
    program := value.program
    ID := id }

/-- cache.Storage.Load run without interference (one caller): read the
counter, increment it (int32, so it wraps), then store the entry under the
read ID. -/
def Storage.Load (s : Storage) (value : Result) : Storage :=
  let id := s.IDCounter
  { str := mapStore s.str id (toCacheFormat id value)
    IDCounter := int32add s.IDCounter 1 }

/-- cache.Storage.ReadAll: copy all entries out of the map (Go iterates the
map in arbitrary order; the model lists them in insertion order, one of the
admissible orders). -/
def Storage.ReadAll (s : Storage) : List CacheStorageFormat := s.str.map Prod.snd

/-- cache.Storage.HasData: whether the map is non-empty. -/
def Storage.HasData (s : Storage) : Bool := s.str.length != 0

/-- n sequential Load calls of the same value. -/
def Storage.loadN (s : Storage) (value : Result) : ℕ → Storage
  | 0 => s
  | n + 1 => (s.loadN value n).Load value

/-- One thread executing Storage.Load, split at its synchronisation points:
pc 0 — atomic.LoadInt32 reads IDCounter into the local id;
pc 1 — atomic.AddInt32 increments IDCounter;
pc 2 — the mutex-protected map insert; pc 3 — returned. -/
structure LoadThread where
  pc : ℕ
  id : ℤ
  value : Result
deriving DecidableEq

/-- The next atomic step of a Load thread against the shared storage. -/
def loadStep (s : Storage) (t : LoadThread) : Storage × LoadThread :=
  if t.pc = 0 then (s, { t with id := s.IDCounter, pc := 1 })
  else if t.pc = 1 then ({ s with IDCounter := int32add s.IDCounter 1 }, { t with pc := 2 })
  else if t.pc = 2 then
    ({ s with str := mapStore s.str t.id (toCacheFormat t.id t.value) }, { t with pc := 3 })
  else (s, t)

/-- A shared Storage together with the concurrent Load callers. -/
structure LoadSystem where
  store : Storage
  threads : List LoadThread
deriving DecidableEq

/-- Let thread i take its next atomic step (no-op for an absent index). -/
def stepSystem (sys : LoadSystem) (i : ℕ) : LoadSystem :=
  match sys.threads[i]? with
  | some t =>
      let st := loadStep sys.store t
      { store := st.1, threads := sys.threads.set i st.2 }
  | none => sys

/-- Run a schedule: the interleaving is the list of thread indices, each
entry letting that thread perform one atomic step. -/
def runSchedule (sys : LoadSystem) : List ℕ → LoadSystem
  | [] => sys
  | i :: rest => runSchedule (stepSystem sys i) rest

/-- n concurrent callers of Load on a fresh store, all still at pc 0. -/
def initLoadSystem (n : ℕ) (value : Result) : LoadSystem :=
  { store := Storage.New, threads := List.replicate n { pc := 0, id := 0, value := value } }

/-- The outcome Execute reports to the HTTP client. -/
inductive ExecuteOutcome where
  | badPayment
  | badProgram (e : ProgErr)
  | ok (result : Result)
deriving DecidableEq

/-- Handlers.Execute (handlers.go) for a decoded POST body, with time.Now()
passed in as `today`: validate the down payment, validate the program
selection, resolve the rate, run the annuity calculation on the int32
difference ObjectCost - InitialPayment, assemble the response, store it. -/
def execute (store : Storage) (today : GoDate) (req : ExecuteReqeust) :
    Storage × ExecuteOutcome :=
  if ! initialPaymentValidator req.ObjectCost req.InitialPayment then
    (store, ExecuteOutcome.badPayment)
  else
    match programValidator req.program with
    | Except.error e => (store, ExecuteOutcome.badProgram e)
    | Except.ok loanProgram =>
        let rp := getLoanRateAndProgram loanProgram
        let pay := monthlyPaymentCalculator
          ((toInt32 (req.ObjectCost - req.InitialPayment) : ℤ) : ℚ) (rp.1 : ℚ) req.Months
        let result := prepareResponse today req rp.2 rp.1 pay.1 pay.2
        (store.Load result, ExecuteOutcome.ok result)

/-- A concrete stored value, taken from the repository's cache test. -/
def sampleResult : Result :=
  { aggregates :=
      { LastPaymentDate := "2024-01-01"
        Rate := 10
        LoanSum := 80000
        MonthlyPayment := 8792
        Overpayment := 5504 }
    params := { ObjectCost := 100000, InitialPayment := 20000, Months := 12 }
    program := ⟨false, false, true⟩ }

/-- The Result the request objectCost 100000, initialPayment 20000, months 12,
program base assembles (today taken as 2026-10-11). -/
def endToEndResult : Result :=
  { aggregates :=
      { LastPaymentDate := "2027-10-10"
        Rate := 10
        LoanSum := 80000
        MonthlyPayment := 7034
        Overpayment := 4408 }
    params := { ObjectCost := 100000, InitialPayment := 20000, Months := 12 }
    program := ⟨false, false, true⟩ }

/- ===================== helper lemmas ===================== -/

lemma toInt32_eq_self (z : ℤ) (h1 : -(2 ^ 31) ≤ z) (h2 : z < 2 ^ 31) : toInt32 z = z := by
  unfold toInt32
  omega

lemma mapStore_not_mem (k : ℤ) (v : CacheStorageFormat) :
    ∀ m : List (ℤ × CacheStorageFormat), k ∉ m.map Prod.fst →
      mapStore m k v = m ++ [(k, v)] := by
  intro m
  induction m with
  | nil => intro _; rfl
  | cons hd tl ih =>
      intro h
      cases hd with
      | mk k2 v2 =>
          simp only [List.map_cons, List.mem_cons] at h
          push_neg at h
          obtain ⟨h1, h2⟩ := h
          simp only [mapStore]
          rw [if_neg (Ne.symm h1), ih h2, List.cons_append]

lemma ceil_pair_eval (A : ℚ) (months : ℤ) (oc : ℚ) (mp op : ℤ)
    (hA : ⌈A⌉ = mp) (hop : ⌈(mp : ℚ) * (months : ℚ) - oc⌉ = op) :
    (⌈A⌉, ⌈((⌈A⌉ : ℤ) : ℚ) * (months : ℚ) - oc⌉) = (mp, op) := by
  rw [hA, hop]

lemma calcEval80000 : monthlyPaymentCalculator 80000 10 12 = (7034, 4408) := by
  simp only [monthlyPaymentCalculator]
  exact ceil_pair_eval _ _ _ _ _ (by rw [Int.ceil_eq_iff]; constructor <;> norm_num)
    (by norm_num)

lemma calcEval100000 : monthlyPaymentCalculator 100000 10 12 = (8792, 5504) := by
  simp only [monthlyPaymentCalculator]
  exact ceil_pair_eval _ _ _ _ _ (by rw [Int.ceil_eq_iff]; constructor <;> norm_num)
    (by norm_num)

lemma calcEval50000 : monthlyPaymentCalculator 50000 5 6 = (8456, 736) := by
  simp only [monthlyPaymentCalculator]
  exact ceil_pair_eval _ _ _ _ _ (by rw [Int.ceil_eq_iff]; constructor <;> norm_num)
    (by norm_num)

lemma execute_ok (store : Storage) (today : GoDate) (req : ExecuteReqeust) (s : String)
    (hip : initialPaymentValidator req.ObjectCost req.InitialPayment = true)
    (hpv : programValidator req.program = Except.ok s) :
    execute store today req =
      (store.Load (prepareResponse today req (getLoanRateAndProgram s).2
          (getLoanRateAndProgram s).1
          (monthlyPaymentCalculator ((toInt32 (req.ObjectCost - req.InitialPayment) : ℤ) : ℚ)
            (((getLoanRateAndProgram s).1 : ℕ) : ℚ) req.Months).1
          (monthlyPaymentCalculator ((toInt32 (req.ObjectCost - req.InitialPayment) : ℤ) : ℚ)
            (((getLoanRateAndProgram s).1 : ℕ) : ℚ) req.Months).2),
        ExecuteOutcome.ok (prepareResponse today req (getLoanRateAndProgram s).2
          (getLoanRateAndProgram s).1
          (monthlyPaymentCalculator ((toInt32 (req.ObjectCost - req.InitialPayment) : ℤ) : ℚ)
            (((getLoanRateAndProgram s).1 : ℕ) : ℚ) req.Months).1
          (monthlyPaymentCalculator ((toInt32 (req.ObjectCost - req.InitialPayment) : ℤ) : ℚ)
            (((getLoanRateAndProgram s).1 : ℕ) : ℚ) req.Months).2)) := by
  simp [execute, hip, hpv]

/- ===================== claim theorems ===================== -/

/-- C1: for every principal p > 0, annual rate percentage r > 0 and term
n ≥ 1 months, monthlyPaymentCalculator(p, r, n) returns
monthlyPayment = ceil(p * m * f / (f - 1)) and
overpayment = ceil(monthlyPayment * n - p), with m = r / (100 * 12) and
f = (1 + m)^n, both rounded up to integers — that is, it agrees with the
specification formula computeAnnuitySpec (the Go float64 arithmetic being
modelled by exact rationals). -/
theorem monthlyPaymentCalculator_matches_spec (p r : ℚ) (n : ℤ)
    (_hp : 0 < p) (_hr : 0 < r) (_hn : 1 ≤ n) :
    monthlyPaymentCalculator p r n = computeAnnuitySpec p r n := by
  simp only [monthlyPaymentCalculator, computeAnnuitySpec, mul_assoc]

/-- Witness for C1 at p = 80000, r = 10, n = 12. -/
theorem monthlyPaymentCalculator_matches_spec_witness :
    (0 : ℚ) < 80000 ∧ (0 : ℚ) < 10 ∧ (1 : ℤ) ≤ 12 ∧
    monthlyPaymentCalculator 80000 10 12 = computeAnnuitySpec 80000 10 12 :=
  ⟨by norm_num, by norm_num, by norm_num,
    monthlyPaymentCalculator_matches_spec 80000 10 12 (by norm_num) (by norm_num) (by norm_num)⟩

/-- C4 counterexample: the claimed fixture computeAnnuity(80000, 10, 12) =
(8792, 5504) is false — on principal 80000 the formula yields (7034, 4408).
The repository's own unit test obtains (8792, 5504) from first argument
100000 (the full object cost), not 80000. -/
theorem computeAnnuity_80000_fixture_false :
    monthlyPaymentCalculator 80000 10 12 ≠ (8792, 5504) := by
  rw [calcEval80000]
  decide

/-- C4 amended: monthlyPaymentCalculator(100000, 10, 12) = (8792, 5504) and
monthlyPaymentCalculator(50000, 5, 6) = (8456, 736) (the fixtures' first
argument is the full object cost, as in the repository's unit tests); the
end-to-end request objectCost 100000, initialPayment 20000, months 12,
program base produces rate 10, loanSum 80000, and — because Execute passes
the principal 80000 to the calculator — monthlyPayment 7034 and
overpayment 4408. -/
theorem computeAnnuity_fixtures_amended :
    monthlyPaymentCalculator 100000 10 12 = (8792, 5504) ∧
    monthlyPaymentCalculator 50000 5 6 = (8456, 736) ∧
    execute Storage.New ⟨2026, 10, 11⟩ ⟨100000, 20000, 12, ⟨false, false, true⟩⟩ =
      (Storage.New.Load endToEndResult, ExecuteOutcome.ok endToEndResult) := by
  refine ⟨calcEval100000, calcEval50000, ?_⟩
  rw [execute_ok Storage.New ⟨2026, 10, 11⟩ ⟨100000, 20000, 12, ⟨false, false, true⟩⟩ "base"
    (by decide) rfl]
  have hcalc : monthlyPaymentCalculator
      ((toInt32 ((100000 : ℤ) - 20000) : ℤ) : ℚ) (((10 : ℕ) : ℕ) : ℚ) 12 = (7034, 4408) := by
    have h1 : ((toInt32 ((100000 : ℤ) - 20000) : ℤ) : ℚ) = 80000 := by
      norm_num [toInt32]
    have h2 : (((10 : ℕ) : ℕ) : ℚ) = 10 := by norm_num
    rw [h1, h2, calcEval80000]
  have hrp : getLoanRateAndProgram "base" = ((10 : ℕ), (⟨false, false, true⟩ : Program)) := rfl
  simp only [hrp, hcalc]
  decide

/-- C5: initialPaymentValidator returns false exactly when
initialPayment > objectCost, or both are zero, or initialPayment = 0, or
(the int32 product) initialPayment * 5 < objectCost, and true otherwise;
in particular (0,0), (100000,0), (100000,19999) and (100000,150000) are
rejected and (100000,20000) is accepted. -/
theorem initialPaymentValidator_spec :
    (∀ objectCost initialPayment : ℤ,
      initialPaymentValidator objectCost initialPayment = false ↔
        (initialPayment > objectCost ∨ (objectCost = 0 ∧ initialPayment = 0) ∨
          initialPayment = 0 ∨ int32mul initialPayment 5 < objectCost)) ∧
    initialPaymentValidator 0 0 = false ∧
    initialPaymentValidator 100000 0 = false ∧
    initialPaymentValidator 100000 20000 = true ∧
    initialPaymentValidator 100000 19999 = false ∧
    initialPaymentValidator 100000 150000 = false := by
  refine ⟨?_, by decide, by decide, by decide, by decide, by decide⟩
  intro oc ip
  unfold initialPaymentValidator
  split_ifs with h1 h2 h3 h4
  · exact iff_of_true rfl (Or.inl h1)
  · exact iff_of_true rfl (Or.inr (Or.inl h2))
  · exact iff_of_true rfl (Or.inr (Or.inr (Or.inl h3)))
  · exact iff_of_true rfl (Or.inr (Or.inr (Or.inr h4)))
  · refine iff_of_false (by simp) ?_
    rintro (h | h | h | h)
    · exact h1 h
    · exact h2 h
    · exact h3 h
    · exact h4 h

/-- C6: programValidator fails with ErrNoTrueValues iff none of the three
program flags is true, fails with ErrMoreThanOneTrue iff more than one is
true, and when exactly one flag is true it returns that program's name
with no error. -/
theorem programValidator_spec :
    ∀ p : Program,
      (programValidator p = Except.error ProgErr.noTrueValues ↔
        p.Base = false ∧ p.Military = false ∧ p.Salary = false) ∧
      (programValidator p = Except.error ProgErr.moreThanOneTrue ↔
        ((p.Base && p.Military) || (p.Base && p.Salary) || (p.Military && p.Salary)) = true) ∧
      (p.Base = true ∧ p.Military = false ∧ p.Salary = false →
        programValidator p = Except.ok "base") ∧
      (p.Military = true ∧ p.Base = false ∧ p.Salary = false →
        programValidator p = Except.ok "military") ∧
      (p.Salary = true ∧ p.Base = false ∧ p.Military = false →
        programValidator p = Except.ok "salary") := by
  intro p
  obtain ⟨s, m, b⟩ := p
  cases s <;> cases m <;> cases b <;> decide

/-- Witness for C6 at the program selection with only the base flag true. -/
theorem programValidator_spec_witness :
    ((⟨false, false, true⟩ : Program).Base = true ∧
      (⟨false, false, true⟩ : Program).Military = false ∧
      (⟨false, false, true⟩ : Program).Salary = false) ∧
    programValidator ⟨false, false, true⟩ = Except.ok "base" :=
  ⟨⟨rfl, rfl, rfl⟩, (programValidator_spec ⟨false, false, true⟩).2.2.1 ⟨rfl, rfl, rfl⟩⟩

/-- C9: with objectCost = 2000000000 and initialPayment = 500000000 the
exact-arithmetic conditions 0 < initialPayment ≤ objectCost and
5 * initialPayment ≥ objectCost all hold, yet initialPaymentValidator
returns false, because the int32 product initialPayment * 5 wraps to the
negative value -1794967296. -/
theorem initialPaymentValidator_int32_overflow :
    (0 : ℤ) < 500000000 ∧ (500000000 : ℤ) ≤ 2000000000 ∧
    (2000000000 : ℤ) ≤ 5 * 500000000 ∧
    int32mul 500000000 5 = -1794967296 ∧
    initialPaymentValidator 2000000000 500000000 = false := by
  decide

/-- C2 (refuting evaluation): under the interleaving in which both
concurrent Load calls perform their atomic counter read before either
performs its atomic increment, both calls complete (pc 3) with the same
ID 0, the counter ends at 2, and the store holds a single entry — one of
the two inserted entries has been overwritten, contradicting the claim
(and the repository's own TestConcurrentAccess and the Load doc comment)
that every insert receives a unique ID and no entry is lost. -/
theorem concurrent_load_loses_entry :
    (∀ t ∈ (runSchedule (initLoadSystem 2 sampleResult) [0, 1, 0, 1, 0, 1]).threads,
        t.pc = 3 ∧ t.id = 0) ∧
    (runSchedule (initLoadSystem 2 sampleResult) [0, 1, 0, 1, 0, 1]).store.IDCounter = 2 ∧
    (runSchedule (initLoadSystem 2 sampleResult) [0, 1, 0, 1, 0, 1]).store.ReadAll.length = 1 := by
  decide

/-- C8 (refuting evaluation): prepareResponse formats the last payment date
through the Go layout string "2006-01-01", in which both "01" tokens are
the month, so for today = 2026-10-11 and months = 12 the computed date is
2027-10-11 but the rendered string is "2027-10-10" — the year-month-day
form "2027-10-11" required by the claim (and shown in the README example
"2044-02-18") is never produced: the day of month does not appear. -/
theorem lastPaymentDate_format_repeats_month :
    GoDate.addMonths ⟨2026, 10, 11⟩ 12 = ⟨2027, 10, 11⟩ ∧
    (prepareResponse ⟨2026, 10, 11⟩ ⟨100000, 20000, 12, ⟨false, false, true⟩⟩
        ⟨false, false, true⟩ 10 7034 4408).aggregates.LastPaymentDate = "2027-10-10" ∧
    formatLayout20060102 ⟨2027, 10, 11⟩ = "2027-10-11" ∧
    formatLayout20060101 ⟨2044, 2, 18⟩ = "2044-02-02" ∧
    ("2027-10-10" : String) ≠ "2027-10-11" := by
  refine ⟨by decide, by decide, by decide, by decide, by decide⟩

/-- C7: whenever validation fails — the down payment is rejected or the
program selection is rejected — Execute leaves the store untouched (same
entry map, same ID counter) and reports only the validation failure. -/
theorem execute_failed_validation_preserves_store
    (store : Storage) (today : GoDate) (req : ExecuteReqeust)
    (h : initialPaymentValidator req.ObjectCost req.InitialPayment = false ∨
      ∃ e, programValidator req.program = Except.error e) :
    (execute store today req).1 = store ∧
    ((execute store today req).2 = ExecuteOutcome.badPayment ∨
      ∃ e, (execute store today req).2 = ExecuteOutcome.badProgram e) := by
  rcases h with h | ⟨e, he⟩
  · simp [execute, h]
  · cases hv : initialPaymentValidator req.ObjectCost req.InitialPayment
    · simp [execute, hv]
    · simp [execute, hv, he]

/-- Witness for C7: a request with zero down payment on a fresh store. -/
theorem execute_failed_validation_preserves_store_witness :
    (initialPaymentValidator (100000 : ℤ) 0 = false ∨
      ∃ e, programValidator (⟨false, false, true⟩ : Program) = Except.error e) ∧
    ((execute Storage.New ⟨2026, 10, 11⟩ ⟨100000, 0, 12, ⟨false, false, true⟩⟩).1 = Storage.New ∧
      ((execute Storage.New ⟨2026, 10, 11⟩ ⟨100000, 0, 12, ⟨false, false, true⟩⟩).2 =
          ExecuteOutcome.badPayment ∨
        ∃ e, (execute Storage.New ⟨2026, 10, 11⟩ ⟨100000, 0, 12, ⟨false, false, true⟩⟩).2 =
          ExecuteOutcome.badProgram e)) :=
  ⟨Or.inl (by decide),
    execute_failed_validation_preserves_store Storage.New ⟨2026, 10, 11⟩
      ⟨100000, 0, 12, ⟨false, false, true⟩⟩ (Or.inl (by decide))⟩

/-- C10: neither Execute nor monthlyPaymentCalculator checks the term: a
request with months = 0 that passes the down-payment and program checks is
fully processed — the result is inserted into the cache via Load and an ok
response is returned — although the payment formula's denominator
factor - 1 = (1 + rate/(100*12))^months - 1 equals 0 for months = 0, a
division by zero. -/
theorem execute_months_zero_no_check
    (store : Storage) (today : GoDate) (req : ExecuteReqeust)
    (hm : req.Months = 0)
    (hip : initialPaymentValidator req.ObjectCost req.InitialPayment = true)
    (hpv : ∃ s, programValidator req.program = Except.ok s) :
    (∃ r, execute store today req = (store.Load r, ExecuteOutcome.ok r)) ∧
    (∀ rate : ℚ, (1 + rate / (100 * 12)) ^ req.Months - 1 = 0) := by
  obtain ⟨s, hs⟩ := hpv
  refine ⟨⟨_, execute_ok store today req s hip hs⟩, ?_⟩
  intro rate
  rw [hm, zpow_zero]
  ring

/-- Witness for C10: objectCost 100000, initialPayment 20000, months 0,
program base, on a fresh store. -/
theorem execute_months_zero_no_check_witness :
    ((⟨100000, 20000, 0, ⟨false, false, true⟩⟩ : ExecuteReqeust).Months = 0 ∧
      initialPaymentValidator (100000 : ℤ) 20000 = true ∧
      ∃ s, programValidator (⟨false, false, true⟩ : Program) = Except.ok s) ∧
    ((∃ r, execute Storage.New ⟨2026, 10, 11⟩ ⟨100000, 20000, 0, ⟨false, false, true⟩⟩ =
        (Storage.New.Load r, ExecuteOutcome.ok r)) ∧
      (∀ rate : ℚ,
        (1 + rate / (100 * 12)) ^
          (⟨100000, 20000, 0, ⟨false, false, true⟩⟩ : ExecuteReqeust).Months - 1 = 0)) :=
  ⟨⟨rfl, by decide, ⟨"base", rfl⟩⟩,
    execute_months_zero_no_check Storage.New ⟨2026, 10, 11⟩
      ⟨100000, 20000, 0, ⟨false, false, true⟩⟩ rfl (by decide) ⟨"base", rfl⟩⟩

lemma loadN_succ (s : Storage) (v : Result) (n : ℕ) :
    s.loadN v (n + 1) = (s.loadN v n).Load v := rfl

lemma loadN_counter_keys (v : Result) :
    ∀ n : ℕ, n ≤ 2 ^ 31 →
      (Storage.New.loadN v n).IDCounter = toInt32 (n : ℤ) ∧
      (Storage.New.loadN v n).str.map Prod.fst = (List.range n).map Int.ofNat := by
  intro n
  induction n with
  | zero =>
      intro _
      refine ⟨?_, rfl⟩
      show (0 : ℤ) = toInt32 0
      unfold toInt32
      decide
  | succ n ih =>
      intro h
      have hnlt : n < 2 ^ 31 := Nat.lt_of_succ_le h
      obtain ⟨hc, hk⟩ := ih (Nat.le_of_succ_le h)
      have hcc : (Storage.New.loadN v n).IDCounter = (n : ℤ) := by
        rw [hc]
        exact toInt32_eq_self _ (le_trans (by norm_num) (Int.ofNat_nonneg n))
          (by exact_mod_cast hnlt)
      have hnotmem : ((n : ℤ)) ∉ (Storage.New.loadN v n).str.map Prod.fst := by
        rw [hk]
        simp only [List.mem_map, List.mem_range]
        rintro ⟨m, hm, hme⟩
        rw [Int.ofNat_eq_natCast] at hme
        omega
      constructor
      · show ((Storage.New.loadN v n).Load v).IDCounter = toInt32 ((n : ℕ) + 1 : ℕ)
        simp only [Storage.Load, hcc]
        show toInt32 ((n : ℤ) + 1) = toInt32 ((n : ℕ) + 1 : ℕ)
        norm_num
      · show ((Storage.New.loadN v n).Load v).str.map Prod.fst = _
        simp only [Storage.Load, hcc]
        rw [mapStore_not_mem _ _ _ hnotmem, List.map_append, hk, List.range_succ,
          List.map_append]
        rfl

/-- C3 (amended with the bound N ≤ 2^31 that the int32 ID counter forces):
after N sequential Load calls on a fresh Store the entry keys are exactly
0, 1, ..., N-1 in increasing order (hence distinct), the store holds
exactly N entries, ReadAll returns a sequence of length N, and HasData is
true exactly when N is nonzero. -/
theorem loadN_sequential_ids (v : Result) (n : ℕ) (h : n ≤ 2 ^ 31) :
    (Storage.New.loadN v n).str.map Prod.fst = (List.range n).map Int.ofNat ∧
    (Storage.New.loadN v n).str.length = n ∧
    (Storage.New.loadN v n).ReadAll.length = n ∧
    ((Storage.New.loadN v n).HasData = true ↔ n ≠ 0) := by
  obtain ⟨_, hk⟩ := loadN_counter_keys v n h
  have hlen : (Storage.New.loadN v n).str.length = n := by
    have h2 := congrArg List.length hk
    simpa using h2
  refine ⟨hk, hlen, ?_, ?_⟩
  · simpa [Storage.ReadAll] using hlen
  · simp [Storage.HasData, hlen]

/-- Witness for C3 at N = 3. -/
theorem loadN_sequential_ids_witness :
    (3 ≤ 2 ^ 31 ∧
      (Storage.New.loadN sampleResult 3).str.map Prod.fst = (List.range 3).map Int.ofNat ∧
      (Storage.New.loadN sampleResult 3).str.length = 3 ∧
      (Storage.New.loadN sampleResult 3).ReadAll.length = 3 ∧
      ((Storage.New.loadN sampleResult 3).HasData = true ↔ 3 ≠ 0)) :=
  ⟨by norm_num, loadN_sequential_ids sampleResult 3 (by norm_num)⟩

/-- C3 counterexample: the claim as stated fails for N = 2^31 + 1 — the
int32 ID counter wraps after 2^31 increments, so the (2^31 + 1)-th Load
assigns the negative ID -2^31 and the key list is no longer
0, 1, ..., N-1. -/
theorem loadN_ids_wrap_counterexample :
    (Storage.New.loadN sampleResult (2 ^ 31 + 1)).str.map Prod.fst ≠
      (List.range (2 ^ 31 + 1)).map Int.ofNat := by
  obtain ⟨hc, hk⟩ := loadN_counter_keys sampleResult (2 ^ 31) le_rfl
  have hcc : (Storage.New.loadN sampleResult (2 ^ 31)).IDCounter = -(2 ^ 31) := by
    rw [hc]
    norm_num [toInt32]
  have hnotmem : (-(2 ^ 31) : ℤ) ∉ (Storage.New.loadN sampleResult (2 ^ 31)).str.map Prod.fst := by
    rw [hk]
    simp only [List.mem_map, List.mem_range]
    rintro ⟨m, _, hme⟩
    have hnn : (0 : ℤ) ≤ Int.ofNat m := Int.ofNat_nonneg m
    rw [hme] at hnn
    norm_num at hnn
  rw [loadN_succ]
  simp only [Storage.Load, hcc]
  rw [mapStore_not_mem _ _ _ hnotmem, List.map_append, hk, List.range_succ, List.map_append]
  intro heq
  rw [List.append_right_inj] at heq
  simp only [List.map_cons, List.map_nil, List.cons.injEq] at heq
  have : (-(2 ^ 31) : ℤ) = Int.ofNat (2 ^ 31) := heq.1
  norm_num at this

end Mortgage
